import Mathlib

/-!
Verification development for the backend value-lowering layer of the LDC
compiler: a shallow embedding of the cast/conversion engine, the assignment
helper, the null-value helper, the global-object registry, the
constant-folding entry points, and the x86 ABI strategy, together with
theorems settling the specification claims about them.

The embedding targets a 32-bit x86 module (matching the sampled abi-x86
strategy): pointers are 4 bytes. Machine integers are modelled as natural
numbers holding the bit pattern, with explicit bounds where overflow
matters. Code paths that report a diagnostic and then call fatal (which
terminates the compiler process unconditionally, as witnessed by the guard
in the fatalError helper of the constant folder) are modelled as
distinguished fatal outcomes of the result type.
-/

/-- Source-language type categories, mirroring the TY enum of the frontend
as consumed by the lowering layer. Types are taken after toBasetype, so
enum and typedef wrappers do not appear. Struct types carry the data the
lowering layer queries from the frontend: an identity, the number of
fields, the size in bytes, POD-ness and presence of a constructor. -/
inductive DType where
  | Tvoid
  | Tbool
  | Tint (sizeBytes : Nat) (unsigned : Bool)
  | Tfloat (sizeBytes : Nat)
  | Tcomplex (sizeBytes : Nat)
  | Tpointer (elem : DType)
  | Tfunction (id : Nat)
  | Tarray (elem : DType)
  | Tsarray (elem : DType) (dim : Nat)
  | Tstruct (id : Nat) (numFields : Nat) (sizeBytes : Nat) (pod : Bool) (hasCtor : Bool)
  | Tclass (id : Nat)
  | Tdelegate (id : Nat)
  | Taarray (id : Nat)
  | Tnull
  | Tnoreturn
  | Tvector (elem : DType) (dim : Nat)
deriving DecidableEq, Repr

/-- Type size in bytes on the 32-bit x86 target (pointer size 4). -/
def DType.size : DType → Nat
  | .Tvoid => 1
  | .Tbool => 1
  | .Tint n _ => n
  | .Tfloat n => n
  | .Tcomplex n => n
  | .Tpointer _ => 4
  | .Tfunction _ => 4
  | .Tarray _ => 8
  | .Tsarray e n => n * e.size
  | .Tstruct _ _ sz _ _ => sz
  | .Tclass _ => 4
  | .Tdelegate _ => 8
  | .Taarray _ => 4
  | .Tnull => 4
  | .Tnoreturn => 0
  | .Tvector e n => n * e.size

/-- Frontend predicate isintegral; as in the frontend, bool is integral and
a vector of integers is itself integral (which is why the cast dispatcher
checks vectors before integers). -/
def DType.isintegral : DType → Bool
  | .Tbool => true
  | .Tint _ _ => true
  | .Tvector e _ => e.isintegral
  | _ => false

/-- Frontend predicate isfloating; complex types are floating, and a vector
of floats is floating. -/
def DType.isfloating : DType → Bool
  | .Tfloat _ => true
  | .Tcomplex _ => true
  | .Tvector e _ => e.isfloating
  | _ => false

/-- Frontend predicate iscomplex. -/
def DType.iscomplex : DType → Bool
  | .Tcomplex _ => true
  | _ => false

/-- Frontend predicate isunsigned; as in the frontend, bool is unsigned. -/
def DType.isunsigned : DType → Bool
  | .Tbool => true
  | .Tint _ u => u
  | .Tvector e _ => e.isunsigned
  | _ => false

def DType.isPointerTy : DType → Bool
  | .Tpointer _ => true
  | _ => false

def DType.isClassTy : DType → Bool
  | .Tclass _ => true
  | _ => false

def DType.isAArrayTy : DType → Bool
  | .Taarray _ => true
  | _ => false

def DType.isDelegateTy : DType → Bool
  | .Tdelegate _ => true
  | _ => false

def DType.isStructTy : DType → Bool
  | .Tstruct _ _ _ _ _ => true
  | _ => false

def DType.isSArrayTy : DType → Bool
  | .Tsarray _ _ => true
  | _ => false

def DType.isArrayTy : DType → Bool
  | .Tarray _ => true
  | _ => false

def DType.isVectorTy : DType → Bool
  | .Tvector _ _ => true
  | _ => false

/-- True exactly for the scalar integer types bool and the sized integers. -/
def isScalarIntTy : DType → Bool
  | .Tbool => true
  | .Tint _ _ => true
  | _ => false

/-- Width in bits of the LLVM integer type a D integer type lowers to:
bool lowers to i1 in registers, an n-byte integer to i(8n). -/
def llIntWidth : DType → Nat
  | .Tbool => 1
  | .Tint n _ => 8 * n
  | .Tvector e k => k * llIntWidth e
  | _ => 0

/-- Whether the LLVM type of an rvalue of scalar integer type fr equals the
LLVM type the target type to lowers to (the early-return check of
DtoCastInt compares the two LLVM types for identity). -/
def sameLLIntType (fr toty : DType) : Bool :=
  isScalarIntTy fr &&
    (match toty with
     | .Tbool => llIntWidth fr == 1
     | .Tint n _ => llIntWidth fr == 8 * n
     | _ => false)

/-- Bit pattern of sign-extending a fw-bit pattern v to tw bits. -/
def sextBits (fw tw v : Nat) : Nat :=
  if v < 2 ^ (fw - 1) then v else v + (2 ^ tw - 2 ^ fw)

/-- Signed reading of a w-bit pattern in two-complement. -/
def toSigned (w v : Nat) : Int :=
  if v < 2 ^ (w - 1) then (v : Int) else (v : Int) - 2 ^ w

/-- isLLVMUnsigned from llvmhelpers: unsigned integers and pointers are
treated as unsigned for widening purposes. -/
def isLLVMUnsigned (t : DType) : Bool :=
  t.isunsigned || t.isPointerTy

/-- Instructions the cast and assignment helpers can emit into the current
basic block. -/
inductive Instr where
  | load
  | store
  | alloca
  | memcpy
  | icmpNe
  | fcmpUne
  | zextI
  | sextI
  | truncI
  | bitcast
  | inttoptr
  | ptrtoint
  | uitofp
  | sitofp
  | fpext
  | fptrunc
  | fptoui
  | fptosi
deriving DecidableEq, Repr

/-- The DValue family, reduced to the representations the modelled paths
inspect: a register-resident value (DImValue, carrying its bit pattern) and
an addressable value (DLValue, carrying the address of its storage). -/
inductive DValue where
  | imm (ty : DType) (bits : Nat)
  | lval (ty : DType) (addr : Nat)
deriving DecidableEq, Repr

def DValue.type : DValue → DType
  | .imm t _ => t
  | .lval t _ => t

/-- Memory, one cell per address; a cell holds the whole value stored at
that address (the byte-level layout is not needed by the claims). -/
abbrev Mem := List Nat

def loadCell (m : Mem) (a : Nat) : Nat := m.getD a 0

def storeCell (m : Mem) (a v : Nat) : Mem := m.set a v

/-- DtoRVal: an immediate yields its bits; an addressable value is loaded
from memory (the load instruction itself is not tracked; no modelled claim
inspects it). -/
def DtoRVal (mem : Mem) : DValue → Nat
  | .imm _ b => b
  | .lval _ a => loadCell mem a

/-- DtoLVal: defined on addressable values only; DtoLVal on a non-lvalue
asserts inside the compiler. -/
def DtoLVal? : DValue → Option Nat
  | .lval _ a => some a
  | .imm _ _ => none

/-- Dedicated sub-routines the cast dispatcher hands whole categories to;
their internals are outside the modelled sample. -/
inductive SubEngine where
  | complexEngine
  | classEngine
  | arrayEngine
  | paintEngine
  | delegateEqualsHelper
deriving DecidableEq, Repr

/-- Result values the modelled cast paths can produce. -/
inductive CastVal where
  | intV (widthBits : Nat) (bits : Nat)
  | boolV (b : Bool)
  | rawRVal (bits : Nat)
  | lvalAt (addr : Nat)
  | spilledTemp (bits : Nat)
  | intToFloat (signedConv : Bool) (srcBits : Nat)
  | ptrOfInt (srcBits : Nat)
  | fcmpResult (srcBits : Nat)
  | floatExt (srcBits : Nat)
  | floatTrunc (srcBits : Nat)
  | floatToInt (unsignedConv : Bool) (srcBits : Nat)
  | nullConst (t : DType)
  | zeroComplexPair (t : DType)
  | slicePair (len ptr : Nat)
deriving DecidableEq, Repr

/-- Outcome of a lowering helper. The three fatal outcomes model a reported
diagnostic followed by fatal(), which terminates the compiler process
unconditionally; same models returning the incoming DValue object itself;
value models returning a freshly built DValue together with the emitted
instructions. -/
inductive EngineResult where
  | same
  | value (emitted : List Instr) (v : CastVal)
  | subEngine (which : SubEngine)
  | fatalInvalidCast
  | fatalICE
  | fatalNullNotKnown
deriving DecidableEq, Repr

/-- True for the outcomes that terminate compilation instead of returning a
value to the caller. -/
def EngineResult.isFatal : EngineResult → Bool
  | .fatalInvalidCast => true
  | .fatalICE => true
  | .fatalNullNotKnown => true
  | _ => false

/-- DtoCastInt from llvmhelpers, on the rvalue bit pattern v of the source.
Branch order follows the source: early return when the LLVM types already
agree, then target bool (compare-not-equal-zero), integral targets
(widen with zero- or sign-extension based on isLLVMUnsigned and the bool
special case, narrow by truncation, bitcast at equal size), complex and
floating targets, pointer target, and a reported invalid-cast error
followed by fatal() for everything else. -/
def DtoCastInt (fr toty : DType) (v : Nat) : EngineResult :=
  if sameLLIntType fr toty then .value [] (.intV (llIntWidth fr) v)
  else if toty = .Tbool then .value [.icmpNe] (.boolV (decide (v ≠ 0)))
  else if toty.isintegral then
    if fr.size < toty.size ∨ fr = .Tbool then
      if isLLVMUnsigned fr || fr == .Tbool then
        .value [.zextI] (.intV (llIntWidth toty) v)
      else
        .value [.sextI] (.intV (llIntWidth toty) (sextBits (llIntWidth fr) (llIntWidth toty) v))
    else if toty.size < fr.size then
      .value [.truncI] (.intV (llIntWidth toty) (v % 2 ^ llIntWidth toty))
    else
      .value [.bitcast] (.intV (llIntWidth toty) v)
  else if toty.iscomplex then .subEngine .complexEngine
  else if toty.isfloating then
    .value [if fr.isunsigned then .uitofp else .sitofp] (.intToFloat (!fr.isunsigned) v)
  else if toty.isPointerTy then .value [.inttoptr] (.ptrOfInt v)
  else .fatalInvalidCast

/-- DtoCastPtr from llvmhelpers, on the rvalue of a pointer or function
value: bit-reinterpretation to pointer, class and associative-array
targets, compare-not-null to bool, ptrtoint to integers, and a reported
invalid-cast error followed by fatal() otherwise. -/
def DtoCastPtr (toty : DType) (rv : Nat) : EngineResult :=
  if toty.isPointerTy || toty.isClassTy || toty.isAArrayTy then
    .value [.bitcast] (.rawRVal rv)
  else if toty = .Tbool then .value [.icmpNe] (.boolV (decide (rv ≠ 0)))
  else if toty.isintegral then .value [.ptrtoint] (.intV (llIntWidth toty) rv)
  else .fatalInvalidCast

/-- DtoCastFloat from llvmhelpers: identity early return, floating
compare-not-equal-zero to bool (the compare is kept symbolic, fcmp une
against zero), widening and narrowing by declared width with an exact-width
match a no-op, signed or unsigned truncating conversion to integers, and a
reported invalid-cast error followed by fatal() otherwise. -/
def DtoCastFloat (fr toty : DType) (rv : Nat) : EngineResult :=
  if fr = toty then .same
  else if toty = .Tbool then .value [.fcmpUne] (.fcmpResult rv)
  else if toty.iscomplex then .subEngine .complexEngine
  else if toty.isfloating then
    if fr.size = toty.size then .value [] (.rawRVal rv)
    else if fr.size < toty.size then .value [.fpext] (.floatExt rv)
    else .value [.fptrunc] (.floatTrunc rv)
  else if toty.isintegral then
    .value [if toty.isunsigned then .fptoui else .fptosi] (.floatToInt toty.isunsigned rv)
  else .fatalInvalidCast

/-- DtoCastDelegate from llvmhelpers: delegate targets are repainted via
DtoPaintType, bool targets compare the pair against null via the dedicated
two-word equality helper, everything else is a reported invalid-cast error
followed by fatal(). -/
def DtoCastDelegate (toty : DType) : EngineResult :=
  if toty.isDelegateTy then .subEngine .paintEngine
  else if toty = .Tbool then .subEngine .delegateEqualsHelper
  else .fatalInvalidCast

/-- DtoCastVector from llvmhelpers: to a static array, reinterpret the
address without a copy when the source is addressable, otherwise spill to a
temporary; to an equally sized vector, bitcast; anything else is a reported
invalid-cast error followed by fatal(). -/
def DtoCastVector (mem : Mem) (val : DValue) (toty : DType) : EngineResult :=
  match toty with
  | .Tsarray _ _ =>
    match val with
    | .lval _ a => .value [.bitcast] (.lvalAt a)
    | .imm _ b => .value [.alloca, .store] (.spilledTemp b)
  | .Tvector e k =>
    if (DType.Tvector e k).size = val.type.size then
      .value [.bitcast] (.rawRVal (DtoRVal mem val))
    else .fatalInvalidCast
  | _ => .fatalInvalidCast

/-- DtoCastStruct from llvmhelpers: a struct target is a layout repaint of
the address; a non-struct target is an internal compiler error followed by
fatal(). DtoLVal on a non-addressable struct value asserts, modelled as an
internal failure. -/
def DtoCastStruct (val : DValue) (toty : DType) : EngineResult :=
  if toty.isStructTy then
    match val with
    | .lval _ a => .value [.bitcast] (.lvalAt a)
    | .imm _ _ => .fatalICE
  else .fatalICE

/-- DtoNullValue from llvmhelpers: complex types first (a pair of zero
floating components), then the categories with no special representation
(integral, floating, pointer, null, class, delegate, associative array) as
the all-zero constant of the lowered type, then dynamic arrays as a
decomposed slice with length constant zero and a null element pointer, and
a reported error followed by fatal() for every other type. -/
def DtoNullValue (t : DType) : EngineResult :=
  if t.iscomplex then .value [] (.zeroComplexPair t)
  else if t.isintegral || t.isfloating || t.isPointerTy || t = .Tnull
      || t.isClassTy || t.isDelegateTy || t.isAArrayTy then
    .value [] (.nullConst t)
  else
    match t with
    | .Tarray _ => .value [] (.slicePair 0 0)
    | _ => .fatalNullNotKnown

/-- DtoCast from llvmhelpers: associative-array sources are handled before
the identity check (reinterpret to another associative array keeping
lvalue-ness, bitcast to pointers, compare-not-null to bool); then the
identity early return on equal basetypes; then dispatch on the source
category, vectors first because vector types can also satisfy isintegral;
unlisted source categories are a reported invalid-cast error followed by
fatal(). -/
def DtoCast (mem : Mem) (val : DValue) (toty : DType) : EngineResult :=
  let fromtype := val.type
  if fromtype.isAArrayTy && toty.isAArrayTy then
    match val with
    | .lval _ a => .value [] (.lvalAt a)
    | .imm _ b => .value [] (.rawRVal b)
  else if fromtype.isAArrayTy && toty.isPointerTy then
    .value [.bitcast] (.rawRVal (DtoRVal mem val))
  else if fromtype.isAArrayTy && toty = .Tbool then
    .value [.icmpNe] (.boolV (decide (DtoRVal mem val ≠ 0)))
  else if fromtype = toty then .same
  else if fromtype.isVectorTy then DtoCastVector mem val toty
  else if fromtype.isintegral then DtoCastInt fromtype toty (DtoRVal mem val)
  else if fromtype.iscomplex then .subEngine .complexEngine
  else if fromtype.isfloating then DtoCastFloat fromtype toty (DtoRVal mem val)
  else
    match fromtype with
    | .Tclass _ => .subEngine .classEngine
    | .Tarray _ => .subEngine .arrayEngine
    | .Tsarray _ _ => .subEngine .arrayEngine
    | .Tpointer _ => DtoCastPtr toty (DtoRVal mem val)
    | .Tfunction _ => DtoCastPtr toty (DtoRVal mem val)
    | .Tdelegate _ => DtoCastDelegate toty
    | .Tstruct _ _ _ _ _ => DtoCastStruct val toty
    | .Tnull => DtoNullValue toty
    | .Tnoreturn => DtoNullValue toty
    | _ => .fatalInvalidCast

/-- Outcome of DtoAssign: done carries the instructions emitted and the
memory after the store; the array and complex branches delegate to
sub-routines outside the modelled sample; recastStore marks the defensive
re-cast path taken when the physical types still disagree; the assert
outcomes model the in-compiler assertions (assigning void, DtoLVal on a
non-lvalue). -/
inductive AssignOutcome where
  | done (emitted : List Instr) (mem : Mem)
  | subArrayAssign
  | subComplexAssign
  | recastStore
  | lvalAssertFail
  | voidAssertFail
deriving DecidableEq, Repr

/-- DtoAssign from llvmhelpers, dispatching on the basetype of the
destination: bool stores with zero-extension to the i8 memory format;
structs copy bytewise unless the struct has no fields or source and
destination addresses coincide at compile time (guarding against an
overlapping memcpy on trivial self-assignment); arrays delegate to
DtoArrayAssign; delegates store their two-word pair; class references
store a bit-reinterpreted pointer; complex values go through the cast
engine; everything else is a direct store, re-cast defensively when the
physical types disagree. -/
def DtoAssign (mem : Mem) (lhs rhs : DValue) : AssignOutcome :=
  let t := lhs.type
  match t with
  | .Tvoid => .voidAssertFail
  | .Tbool =>
    match DtoLVal? lhs with
    | some a => .done [.store] (storeCell mem a (DtoRVal mem rhs))
    | none => .lvalAssertFail
  | .Tstruct _ nf _ _ _ =>
    if nf > 0 then
      match DtoLVal? rhs, DtoLVal? lhs with
      | some src, some dst =>
        if src ≠ dst then .done [.memcpy] (storeCell mem dst (loadCell mem src))
        else .done [] mem
      | _, _ => .lvalAssertFail
    else .done [] mem
  | .Tarray _ => .subArrayAssign
  | .Tsarray _ _ => .subArrayAssign
  | .Tdelegate _ =>
    match DtoLVal? lhs with
    | some a => .done [.store] (storeCell mem a (DtoRVal mem rhs))
    | none => .lvalAssertFail
  | .Tclass _ =>
    match DtoLVal? lhs with
    | some a => .done [.bitcast, .store] (storeCell mem a (DtoRVal mem rhs))
    | none => .lvalAssertFail
  | .Tcomplex _ => .subComplexAssign
  | _ =>
    match DtoLVal? lhs with
    | some a =>
      if rhs.type = lhs.type then .done [.store] (storeCell mem a (DtoRVal mem rhs))
      else .recastStore
    | none => .lvalAssertFail

/-- Target architectures distinguished by declareGlobal. -/
inductive Arch where
  | x86
  | ppc
  | wasm32
  | wasm64
  | avr
deriving DecidableEq, Repr

/-- LLVM thread-local storage modes. -/
inductive TLSModelKind where
  | GeneralDynamicTLSModel
  | LocalDynamicTLSModel
  | InitialExecTLSModel
  | LocalExecTLSModel
  | NotThreadLocal
deriving DecidableEq, Repr

/-- The four values of the recognized fthread-model command-line option
(clThreadModel); the option defaults to global-dynamic. -/
inductive ThreadModelOption where
  | globalDynamic
  | localDynamic
  | initialExec
  | localExec
deriving DecidableEq, Repr

/-- Default value of the clThreadModel option (cl init GeneralDynamic). -/
def clThreadModelDefault : ThreadModelOption := .globalDynamic

/-- TLS mode selected by each option value. -/
def ThreadModelOption.toTLSMode : ThreadModelOption → TLSModelKind
  | .globalDynamic => .GeneralDynamicTLSModel
  | .localDynamic => .LocalDynamicTLSModel
  | .initialExec => .InitialExecTLSModel
  | .localExec => .LocalExecTLSModel

/-- Physical LLVM types are uniqued by the context; the handle compares by
identity. -/
structure LLTypeHandle where
  id : Nat
deriving DecidableEq, Repr

/-- A target-level global variable as recorded in the module. -/
structure LLGlobalVariable where
  name : String
  gtype : LLTypeHandle
  isConstant : Bool
  tlsMode : TLSModelKind
  dllImport : Bool
deriving DecidableEq, Repr

/-- isThreadLocal query of a global (any mode other than NotThreadLocal). -/
def LLGlobalVariable.isThreadLocal (g : LLGlobalVariable) : Bool :=
  g.tlsMode ≠ .NotThreadLocal

/-- The module registry of globals, looked up by mangled name. -/
structure LLModule where
  globals : List LLGlobalVariable
deriving DecidableEq, Repr

def LLModule.getGlobalVariable (m : LLModule) (n : String) : Option LLGlobalVariable :=
  m.globals.find? (fun g => g.name == n)

/-- Target facts declareGlobal consults. -/
structure TargetInfo where
  arch : Arch
  isOSWindows : Bool
deriving DecidableEq, Repr

/-- Outcome of declareGlobal: either the (possibly extended) module with
the declared or found global, or a reported mismatch diagnostic followed by
fatal(). -/
inductive DeclareGlobalResult where
  | declared (m : LLModule) (g : LLGlobalVariable)
  | fatalMismatch
deriving DecidableEq, Repr

/-- declareGlobal from llvmhelpers: thread-locality is forced off on
WebAssembly and AVR; a global already registered under the mangled name is
returned as is when its physical type, constant-ness and thread-locality
all match the request, and any difference is a reported error followed by
fatal(); otherwise a new global is created with the TLS mode selected by
the clThreadModel option, except on PPC where only local-exec is available
and the option is ignored, and with dllimport storage on Windows when
requested. -/
def declareGlobal (tgt : TargetInfo) (threadModel : ThreadModelOption)
    (m : LLModule) (ty : LLTypeHandle) (mangledName : String)
    (isConstant isThreadLocal useDLLImport : Bool) : DeclareGlobalResult :=
  let isThreadLocal :=
    if tgt.arch = .wasm32 ∨ tgt.arch = .wasm64 ∨ tgt.arch = .avr then false
    else isThreadLocal
  match m.getGlobalVariable mangledName with
  | some existing =>
    if existing.gtype ≠ ty ∨ existing.isConstant ≠ isConstant
        ∨ existing.isThreadLocal ≠ isThreadLocal then
      .fatalMismatch
    else
      .declared m existing
  | none =>
    let tlsModel :=
      if isThreadLocal then
        if tgt.arch = .ppc then TLSModelKind.LocalExecTLSModel
        else threadModel.toTLSMode
      else TLSModelKind.NotThreadLocal
    let gvar : LLGlobalVariable :=
      { name := mangledName
        gtype := ty
        isConstant := isConstant
        tlsMode := tlsModel
        dllImport := useDLLImport && tgt.isOSWindows }
    .declared { globals := m.globals ++ [gvar] } gvar

/-- IR constants the modelled constant folder produces. -/
inductive LLConst where
  | intConst (t : DType) (v : Nat)
  | realConst (t : DType)
  | nullConstC (t : DType)
  | undef (t : DType)
deriving DecidableEq, Repr

/-- Expression kinds exercising the distinct outcome paths of the
ToConstElemVisitor: literals that fold (integer, real, null); a variable
reference without a usable constant initializer, whose visit reports an
error and leaves the result null without calling the fatalError helper; a
cast that cannot be performed at compile time and the generic fallback for
non-constant expressions, both of which report an error and then call the
fatalError helper. -/
inductive CExpr where
  | integerE (t : DType) (v : Nat)
  | realE (t : DType)
  | nullE (t : DType)
  | varNonConstE (t : DType)
  | castCTErrE (t : DType)
  | otherE (t : DType)
deriving DecidableEq, Repr

def CExpr.type : CExpr → DType
  | .integerE t _ => t
  | .realE t => t
  | .nullE t => t
  | .varNonConstE t => t
  | .castCTErrE t => t
  | .otherE t => t

/-- The global error-gagging state: the gag nesting level, the count of
errors swallowed while gagged, and the count of errors printed. -/
structure GlobalState where
  gag : Nat
  gaggedErrors : Nat
  errors : Nat
deriving DecidableEq, Repr

/-- Reporting a user diagnosable error: counted as gagged when gagging is
active, printed and counted otherwise. -/
def reportError (g : GlobalState) : GlobalState :=
  if g.gag > 0 then { g with gaggedErrors := g.gaggedErrors + 1 }
  else { g with errors := g.errors + 1 }

/-- startGagging: raises the gag level and remembers the gagged-error count
to compare against later. -/
def startGagging (g : GlobalState) : Nat × GlobalState :=
  (g.gaggedErrors, { g with gag := g.gag + 1 })

/-- endGagging: lowers the gag level and tells whether new errors were
swallowed since the matching startGagging. -/
def endGagging (g : GlobalState) (oldGagged : Nat) : Bool × GlobalState :=
  (decide (g.gaggedErrors ≠ oldGagged), { g with gag := g.gag - 1 })

/-- Result of running the visitor: a result constant (possibly null) with
the updated global state, or termination of the compiler because fatal()
ran. -/
inductive VisitResult where
  | res (g : GlobalState) (c : Option LLConst)
  | terminated (g : GlobalState)
deriving DecidableEq, Repr

/-- The fatalError helper of the visitor: the result is set to null and
fatal() terminates the process unless gagging is active (the explicit gag
guard in the source shows fatal() itself is unconditional). -/
def fatalErrorHelper (g : GlobalState) : VisitResult :=
  if g.gag = 0 then .terminated g else .res g none

/-- The visitor dispatch of ToConstElemVisitor over the modelled
expression kinds. -/
def processConstElem (g : GlobalState) : CExpr → VisitResult
  | .integerE t v => .res g (some (.intConst t v))
  | .realE t => .res g (some (.realConst t))
  | .nullE t => .res g (some (.nullConstC t))
  | .varNonConstE _ => .res (reportError g) none
  | .castCTErrE _ => fatalErrorHelper (reportError g)
  | .otherE _ => fatalErrorHelper (reportError g)

/-- Outcome of toConstElem: a constant is always produced when the call
returns; failure inside the visitor either terminated compilation or was
converted to an undef sentinel of the expression type. -/
inductive ConstElemOut where
  | ok (g : GlobalState) (c : LLConst)
  | terminated (g : GlobalState)
deriving DecidableEq, Repr

def ConstElemOut.isTerminated : ConstElemOut → Bool
  | .terminated _ => true
  | .ok _ _ => false

/-- toConstElem from toconstelem: runs the visitor and never returns null,
substituting an undefined constant of the expression type in the error
case. -/
def toConstElem (g : GlobalState) (e : CExpr) : ConstElemOut :=
  match processConstElem g e with
  | .terminated g1 => .terminated g1
  | .res g1 none => .ok g1 (.undef e.type)
  | .res g1 (some c) => .ok g1 c

/-- Outcome of tryToConstElem: null signals that new errors occurred while
gagged. -/
inductive TryConstElemOut where
  | ok (g : GlobalState) (c : Option LLConst)
  | terminated (g : GlobalState)
deriving DecidableEq, Repr

/-- tryToConstElem from toconstelem: gags diagnostics around the fold and
returns null exactly when new errors occurred, the folded constant
otherwise. -/
def tryToConstElem (g : GlobalState) (e : CExpr) : TryConstElemOut :=
  let p := startGagging g
  match processConstElem p.2 e with
  | .terminated g1 => .terminated g1
  | .res g1 c =>
    let q := endGagging g1 p.1
    if q.1 then .ok q.2 none else .ok q.2 c

/-- Function linkages distinguished by the ABI strategy (the frontend
resolves the default linkage before classification). -/
inductive LINKAGE where
  | d
  | c
  | cpp
  | windows
  | objc
deriving DecidableEq, Repr

/-- The abstract function type as consulted by the ABI strategy. The
return type is stored after the getExtraLoweredReturnType folding of the
magic __c_complex enums, which cannot appear in this type universe. -/
structure TypeFunction where
  retTy : DType
  linkage : LINKAGE
  variadic : Bool
  isref : Bool
deriving DecidableEq, Repr

/-- getExtraLoweredReturnType from abi-x86: folds the magic
__c_complex_{float,double,real} enums to the basic complex types and takes
the basetype; in a universe without enum wrappers this is the stored
return type. -/
def getExtraLoweredReturnType (tf : TypeFunction) : DType := tf.retTy

/-- Modelled from the spec: isExternD (defined in the ABI helpers, outside
the sampled sources) answers whether the function uses the source-language
own extern(D), non-interop calling convention; variadic functions use the
C convention and are excluded. -/
def isExternD (tf : TypeFunction) : Bool :=
  tf.linkage == .d && !tf.variadic

/-- Modelled from the spec: isAggregate (defined in the ABI helpers,
outside the sampled sources) holds for the non-scalar categories the ABI
treats as aggregates: structs, static arrays, complex numbers and
delegates (two-word pairs). -/
def isAggregate (t : DType) : Bool :=
  t.isStructTy || t.isSArrayTy || t.iscomplex || t.isDelegateTy

/-- Modelled from the spec: isPOD (defined in the ABI helpers, outside the
sampled sources) answers trivially-copyable; with the exclude flag the
MSVC++ variant also rejects structs with constructors. Non-struct types
are POD. -/
def isPOD (t : DType) (excludeStructsWithCtor : Bool) : Bool :=
  match t with
  | .Tstruct _ _ _ pod hasCtor => pod && (!excludeStructsWithCtor || !hasCtor)
  | _ => true

/-- Modelled from the spec: canRewriteAsInt (defined in the ABI helpers,
outside the sampled sources) holds for aggregates of a power-of-two size
within the 8 byte register-return threshold, which can be reinterpreted as
an equivalently sized integer. -/
def canRewriteAsInt (t : DType) : Bool :=
  t.size == 1 || t.size == 2 || t.size == 4 || t.size == 8

/-- The x86 ABI strategy state: target facts fixed at construction
(returnStructsInRegs is false on Linux, Solaris and NetBSD). -/
structure X86TargetABI where
  isDarwin : Bool
  isMSVC : Bool
  returnStructsInRegs : Bool
deriving DecidableEq, Repr

/-- returnInArg from abi-x86: ref returns never use sret; non-aggregates
return directly; complex numbers return directly under extern(D) and
otherwise use sret except cfloat (rewritten as a 64-bit integer); on
targets that do not return structs in registers all non-extern(D)
aggregate returns use sret; MSVC++ member functions force sret for
structs; non-POD aggregates force sret; remaining aggregates return in
registers exactly when they can be rewritten as an equivalently sized
integer. -/
def X86TargetABI.returnInArg (abi : X86TargetABI) (tf : TypeFunction)
    (needsThis : Bool) : Bool :=
  if tf.isref then false
  else
    let rt := getExtraLoweredReturnType tf
    let externD := isExternD tf
    if !isAggregate rt then false
    else if rt.iscomplex then
      if externD then false
      else !(rt == .Tcomplex 8)
    else if !externD && !abi.returnStructsInRegs then true
    else
      let isMSVCpp := abi.isMSVC && tf.linkage == .cpp
      if isMSVCpp && needsThis && rt.isStructTy then true
      else if !(isPOD rt isMSVCpp) then true
      else !(canRewriteAsInt rt)

/-- Attributes attached to a lowered argument. -/
inductive LLAttr where
  | InReg
  | StructRet
  | ByVal
  | Alignment
deriving DecidableEq, Repr

/-- The rewrites the x86 strategy applies to arguments. -/
inductive RewriteKind where
  | integerRW
  | indirectByvalRW
deriving DecidableEq, Repr

/-- One lowered parameter or return slot of a function type. -/
structure IrFuncTyArg where
  atype : DType
  byref : Bool
  attrs : List LLAttr
  rewrite : Option RewriteKind
deriving DecidableEq, Repr

/-- isByVal query of an argument (the LLVM byval attribute is present). -/
def IrFuncTyArg.isByVal (a : IrFuncTyArg) : Bool :=
  a.attrs.contains .ByVal

def addAttr (a : IrFuncTyArg) (x : LLAttr) : IrFuncTyArg :=
  { a with attrs := a.attrs ++ [x] }

def removeAttr (a : IrFuncTyArg) (x : LLAttr) : IrFuncTyArg :=
  { a with attrs := a.attrs.filter (fun y => y ≠ x) }

/-- IntegerRewrite applyTo: marks the slot as rewritten to an equivalently
sized integer. -/
def applyIntegerRewrite (a : IrFuncTyArg) : IrFuncTyArg :=
  { a with rewrite := some .integerRW }

/-- IndirectByvalRewrite applyTo: the argument is passed indirectly by
value through a pointer to a caller-owned copy. -/
def applyIndirectByval (a : IrFuncTyArg) : IrFuncTyArg :=
  { a with rewrite := some .indirectByvalRW, byref := true }

/-- The lowered function type record rewriteFunctionType mutates. -/
structure IrFuncTy where
  ftype : TypeFunction
  ret : IrFuncTyArg
  arg_this : Option IrFuncTyArg
  arg_nest : Option IrFuncTyArg
  arg_sret : Option IrFuncTyArg
  args : List IrFuncTyArg
deriving DecidableEq, Repr

/-- Modelled from the spec: skipReturnValueRewrite (defined in the ABI
helpers, outside the sampled sources) skips return rewriting when the
return slot is passed by reference (sret or ref return) or the return type
is void or noreturn. -/
def skipReturnValueRewrite (fty : IrFuncTy) : Bool :=
  fty.ret.byref || fty.ret.atype == .Tvoid || fty.ret.atype == .Tnoreturn

/-- Return-value block of rewriteFunctionType: rewrite register-returned
aggregates as equivalently sized integers, except cfloat under
extern(D). -/
def rewriteRetBlock (fty : IrFuncTy) : IrFuncTy :=
  let externD := isExternD fty.ftype
  if !skipReturnValueRewrite fty then
    let rt := getExtraLoweredReturnType fty.ftype
    if isAggregate rt && canRewriteAsInt rt && !(externD && rt == .Tcomplex 8) then
      { fty with ret := applyIntegerRewrite fty.ret }
    else fty
  else fty

/-- Non-POD block of rewriteFunctionType: non-POD arguments are passed
indirectly by value, except under MSVC++. -/
def rewriteNonPODBlock (abi : X86TargetABI) (fty : IrFuncTy) : IrFuncTy :=
  let isMSVCpp := abi.isMSVC && fty.ftype.linkage == .cpp
  if !isMSVCpp then
    { fty with
      args := fty.args.map (fun a =>
        if !a.byref && !(isPOD a.atype false) then applyIndirectByval a else a) }
  else fty

/-- Register-packing block of rewriteFunctionType (extern(D) only): put
the this pointer, else the context pointer, else the sret pointer (whose
StructRet attribute must be dropped as it is incompatible with InReg), and
otherwise the trailing argument into EAX; a trailing argument passed by
value qualifies only when it is not floating point and its size is exactly
1, 2 or 4 bytes, with structs and static arrays first rewritten as
integers (undoing the byval semantics applied through passByVal). -/
def rewriteInRegBlock (fty : IrFuncTy) : IrFuncTy :=
  if isExternD fty.ftype then
    match fty.arg_this with
    | some t => { fty with arg_this := some (addAttr t .InReg) }
    | none =>
      match fty.arg_nest with
      | some n => { fty with arg_nest := some (addAttr n .InReg) }
      | none =>
        match fty.arg_sret with
        | some s =>
          { fty with arg_sret := some (addAttr (removeAttr s .StructRet) .InReg) }
        | none =>
          match fty.args.getLast? with
          | none => fty
          | some last =>
            let lastR :=
              if last.rewrite == some .indirectByvalRW
                  || (last.byref && !last.isByVal) then
                addAttr last .InReg
              else
                let lastTy := last.atype
                let sz := lastTy.size
                if !lastTy.isfloating && (sz == 1 || sz == 2 || sz == 4) then
                  let cleared :=
                    if lastTy.isStructTy || lastTy.isSArrayTy then
                      { applyIntegerRewrite last with byref := false, attrs := [] }
                    else last
                  addAttr cleared .InReg
                else last
            { fty with args := fty.args.dropLast ++ [lastR] }
  else fty

/-- workaroundIssue1356 from abi-x86: MSVC targets cannot encode alignment
attributes on byval arguments, so they are stripped. -/
def workaroundIssue1356 (abi : X86TargetABI) (fty : IrFuncTy) : IrFuncTy :=
  if abi.isMSVC then
    { fty with
      args := fty.args.map (fun a =>
        if a.isByVal then removeAttr a .Alignment else a) }
  else fty

def isEmptyStruct : DType → Bool
  | .Tstruct _ nf _ _ _ => nf == 0
  | _ => false

/-- Empty-struct block of rewriteFunctionType: for C++ ABI compatibility
on Darwin, non-extern(D) functions do not pass empty structs at all. -/
def elideEmptyStructsBlock (abi : X86TargetABI) (fty : IrFuncTy) : IrFuncTy :=
  if isExternD fty.ftype || !abi.isDarwin then fty
  else { fty with args := fty.args.filter (fun a => !isEmptyStruct a.atype) }

/-- rewriteFunctionType from abi-x86: the sequential blocks of the source
function. -/
def X86TargetABI.rewriteFunctionType (abi : X86TargetABI) (fty : IrFuncTy) : IrFuncTy :=
  elideEmptyStructsBlock abi
    (workaroundIssue1356 abi
      (rewriteInRegBlock
        (rewriteNonPODBlock abi
          (rewriteRetBlock fty))))

theorem toSigned_sextBits (fw tw v : Nat) (hv : v < 2 ^ fw) (hw : fw ≤ tw) :
    toSigned tw (sextBits fw tw v) = toSigned fw v := by
  have hB : 2 ^ fw ≤ 2 ^ tw := Nat.pow_le_pow_right (by norm_num) hw
  have hA : 2 ^ (fw - 1) ≤ 2 ^ (tw - 1) :=
    Nat.pow_le_pow_right (by norm_num) (by omega)
  unfold toSigned sextBits
  by_cases h1 : v < 2 ^ (fw - 1)
  · have h2 : v < 2 ^ (tw - 1) := lt_of_lt_of_le h1 hA
    simp [h1, h2]
  · have hfw : 1 ≤ fw := by
      by_contra hc
      have hz : fw = 0 := by omega
      subst hz
      simp at hv h1
      omega
    have hBA : 2 ^ (fw - 1) * 2 = 2 ^ fw := by
      rw [← pow_succ, Nat.sub_add_cancel hfw]
    have hDC : 2 ^ (tw - 1) * 2 = 2 ^ tw := by
      rw [← pow_succ, Nat.sub_add_cancel (le_trans hfw hw)]
    have h3 : ¬ (v + (2 ^ tw - 2 ^ fw) < 2 ^ (tw - 1)) := by omega
    have hc : ((2 ^ tw - 2 ^ fw : Nat) : Int) = (2 : Int) ^ tw - (2 : Int) ^ fw := by
      push_cast [Nat.cast_sub hB]
      ring
    rw [if_neg h1, if_neg h1, if_neg h3, Nat.cast_add, hc]
    ring

theorem sameLLIntType_int_lt (m n : Nat) (u u2 : Bool) (h : m < n) :
    sameLLIntType (.Tint m u) (.Tint n u2) = false := by
  have hb : (8 * m == 8 * n) = false := by
    simp only [beq_eq_false_iff_ne, ne_eq]
    omega
  simp [sameLLIntType, isScalarIntTy, llIntWidth, hb]

theorem sameLLIntType_bool_int (n : Nat) (u : Bool) :
    sameLLIntType .Tbool (.Tint n u) = false := by
  have hb : (1 == 8 * n) = false := by
    simp only [beq_eq_false_iff_ne, ne_eq]
    omega
  simp [sameLLIntType, isScalarIntTy, llIntWidth, hb]

/-- C1: for every integer-to-integer cast whose source is strictly smaller
than the target or whose source is bool, DtoCastInt widens by
zero-extension exactly when the source is unsigned or bool (and
isLLVMUnsigned additionally treats pointer types as unsigned), and by
sign-extension otherwise, the sign-extension preserving the signed value;
in particular the 16-bit unsigned pattern 0xFFFF cast to a 32-bit signed
integer zero-extends to 0x0000FFFF, and the 32-bit signed pattern of -1
cast to a 64-bit signed integer sign-extends to 0xFFFFFFFFFFFFFFFF. -/
theorem C1_integer_widening (fr : DType) (n : Nat) (u : Bool) (v : Nat)
    (hfr : isScalarIntTy fr = true)
    (hsz : fr.size < (DType.Tint n u).size ∨ fr = .Tbool)
    (hv : v < 2 ^ llIntWidth fr) :
    ((isLLVMUnsigned fr || fr == .Tbool) = true →
      DtoCastInt fr (.Tint n u) v = .value [.zextI] (.intV (8 * n) v))
    ∧ ((isLLVMUnsigned fr || fr == .Tbool) = false →
      DtoCastInt fr (.Tint n u) v
        = .value [.sextI] (.intV (8 * n) (sextBits (llIntWidth fr) (8 * n) v))
      ∧ toSigned (8 * n) (sextBits (llIntWidth fr) (8 * n) v)
          = toSigned (llIntWidth fr) v)
    ∧ (∀ e : DType, isLLVMUnsigned (.Tpointer e) = true)
    ∧ DtoCastInt (.Tint 2 true) (.Tint 4 false) 0xFFFF
        = .value [.zextI] (.intV 32 0xFFFF)
    ∧ DtoCastInt (.Tint 4 false) (.Tint 8 false) 0xFFFFFFFF
        = .value [.sextI] (.intV 64 0xFFFFFFFFFFFFFFFF) := by
  refine ⟨?_, ?_, fun e => rfl, by decide, by decide⟩
  · intro hu
    cases fr with
    | Tbool =>
      simp [DtoCastInt, sameLLIntType_bool_int, DType.isintegral, llIntWidth]
    | Tint m u2 =>
      have hmn : m < n := by
        rcases hsz with h | h
        · simpa [DType.size] using h
        · exact absurd h (by simp)
      have hu2 : u2 = true := by
        simpa [isLLVMUnsigned, DType.isunsigned, DType.isPointerTy] using hu
      subst hu2
      simp [DtoCastInt, sameLLIntType_int_lt m n true u hmn, DType.isintegral,
        DType.size, hmn, isLLVMUnsigned, DType.isunsigned, llIntWidth]
    | _ => simp [isScalarIntTy] at hfr
  · intro hu
    cases fr with
    | Tbool => simp [isLLVMUnsigned, DType.isunsigned] at hu
    | Tint m u2 =>
      have hmn : m < n := by
        rcases hsz with h | h
        · simpa [DType.size] using h
        · exact absurd h (by simp)
      have hu2 : u2 = false := by
        simpa [isLLVMUnsigned, DType.isunsigned, DType.isPointerTy] using hu
      subst hu2
      constructor
      · simp [DtoCastInt, sameLLIntType_int_lt m n false u hmn, DType.isintegral,
          DType.size, hmn, isLLVMUnsigned, DType.isunsigned, DType.isPointerTy,
          llIntWidth]
      · exact toSigned_sextBits (8 * m) (8 * n) v (by simpa [llIntWidth] using hv)
          (by omega)
    | _ => simp [isScalarIntTy] at hfr

/-- C1 witness: the theorem applied to the concrete 16-bit unsigned to
32-bit signed cast of 0xFFFF. -/
theorem C1_integer_widening_witness :
    DtoCastInt (.Tint 2 true) (.Tint 4 false) 0xFFFF
      = .value [.zextI] (.intV 32 0xFFFF) :=
  (C1_integer_widening (.Tint 2 true) 4 false 0xFFFF (by decide) (by decide)
    (by decide)).1 (by decide)

/-- C8 counterexample: casting an addressable associative-array value to
its own exact type takes the associative-array branch that runs before the
identity check and returns a freshly built DValue wrapping the same
address, not the same Value object. -/
theorem C8_aa_selfcast_counterexample :
    DtoCast [] (.lval (.Taarray 0) 7) (.Taarray 0) = .value [] (.lvalAt 7)
    ∧ (EngineResult.value [] (.lvalAt 7) ≠ .same) := by decide

/-- C8 amended: casting a value to its own exact basetype returns the very
same Value object with no instruction emitted, except for
associative-array types, which are handled before the identity check and
return a fresh DValue wrapping the same address (lvalue) or the same
rvalue bits (immediate), still with no instruction emitted. -/
theorem C8_selfcast_identity_amended (mem : Mem) (val : DValue)
    (h : val.type.isAArrayTy = false) :
    DtoCast mem val val.type = .same
    ∧ (∀ idv a, DtoCast mem (.lval (.Taarray idv) a) (.Taarray idv)
        = .value [] (.lvalAt a))
    ∧ (∀ idv b, DtoCast mem (.imm (.Taarray idv) b) (.Taarray idv)
        = .value [] (.rawRVal b)) := by
  refine ⟨?_, fun idv a => by simp [DtoCast, DValue.type, DType.isAArrayTy],
    fun idv b => by simp [DtoCast, DValue.type, DType.isAArrayTy]⟩
  simp [DtoCast, h]

/-- C8 witness: a self-cast of an immediate 32-bit integer returns the
same Value object. -/
theorem C8_selfcast_identity_witness :
    DtoCast [] (.imm (.Tint 4 true) 5) (.Tint 4 true) = .same :=
  (C8_selfcast_identity_amended [] (.imm (.Tint 4 true) 5) (by decide)).1

/-- C3 counterexample: an unrecognized source category (void) with a bool
target makes DtoCast report the invalid-cast diagnostic and call fatal(),
terminating compilation; no poison value is returned to the caller. -/
theorem C3_invalid_cast_counterexample :
    DtoCast [] (.imm .Tvoid 0) .Tbool = .fatalInvalidCast
    ∧ EngineResult.isFatal (DtoCast [] (.imm .Tvoid 0) .Tbool) = true := by decide

/-- C3 amended: a cast request whose source or target category is not one
of the recognized combinations reports a diagnosable invalid-cast error
and then terminates compilation through fatal() (the poison-value recovery
described by the specification belongs to the constant-folding entry
points, not to the runtime cast engine): a void source hits the default
case of the dispatcher, and an integral source with a static-array target
hits the error case of DtoCastInt. -/
theorem C3_invalid_cast_fatal_amended (mem : Mem) (v : Nat) (toty : DType)
    (h : toty ≠ .Tvoid) :
    DtoCast mem (.imm .Tvoid v) toty = .fatalInvalidCast
    ∧ (∀ (m : Nat) (u : Bool) (e : DType) (dim vv : Nat),
        DtoCastInt (.Tint m u) (.Tsarray e dim) vv = .fatalInvalidCast) := by
  constructor
  · simp [DtoCast, DValue.type, DType.isAArrayTy, DType.isVectorTy,
      DType.isintegral, DType.iscomplex, DType.isfloating, Ne.symm h]
  · intro m u e dim vv
    simp [DtoCastInt, sameLLIntType, isScalarIntTy, DType.isintegral,
      DType.iscomplex, DType.isfloating, DType.isPointerTy]

/-- C3 witness: the amended theorem at a concrete unrecognized pair. -/
theorem C3_invalid_cast_fatal_witness :
    DtoCast [] (.imm .Tvoid 3) (.Tint 4 true) = .fatalInvalidCast :=
  (C3_invalid_cast_fatal_amended [] 3 (.Tint 4 true) (by decide)).1

/-- C10: DtoNullValue yields, for a dynamic-array type, a decomposed slice
with length constant 0 and a null element pointer (never the monolithic
zero constant); for integral, floating, pointer, null, class, delegate and
associative-array types (complex excluded, handled first) the all-zero
null constant of the lowered type; for complex types a pair of zero
floating components; and for every other type a reported user-diagnosable
error followed by fatal() terminating compilation. -/
theorem C10_null_value (t : DType) :
    (∀ e : DType, DtoNullValue (.Tarray e) = .value [] (.slicePair 0 0)
      ∧ ∀ c : DType, EngineResult.value [] (.slicePair 0 0)
          ≠ .value [] (.nullConst c))
    ∧ (t.iscomplex = false →
        (t.isintegral || t.isfloating || t.isPointerTy || decide (t = .Tnull)
          || t.isClassTy || t.isDelegateTy || t.isAArrayTy) = true →
        DtoNullValue t = .value [] (.nullConst t))
    ∧ (t.iscomplex = true → DtoNullValue t = .value [] (.zeroComplexPair t))
    ∧ (t.iscomplex = false → t.isintegral = false → t.isfloating = false →
        t.isPointerTy = false → t ≠ .Tnull → t.isClassTy = false →
        t.isDelegateTy = false → t.isAArrayTy = false → t.isArrayTy = false →
        DtoNullValue t = .fatalNullNotKnown) := by
  refine ⟨fun e => ⟨rfl, fun c => by simp⟩, ?_, ?_, ?_⟩
  · intro hc hbig
    simp [DtoNullValue, hc, hbig]
  · intro hc
    simp [DtoNullValue, hc]
  · intro h1 h2 h3 h4 h5 h6 h7 h8 h9
    cases t <;> simp_all [DtoNullValue, DType.iscomplex, DType.isintegral,
      DType.isfloating, DType.isPointerTy, DType.isClassTy, DType.isDelegateTy,
      DType.isAArrayTy, DType.isArrayTy]

/-- C10 witness: the theorem at concrete types, one per bucket. -/
theorem C10_null_value_witness :
    DtoNullValue (.Tint 4 true) = .value [] (.nullConst (.Tint 4 true))
    ∧ DtoNullValue (.Tcomplex 16)
        = .value [] (.zeroComplexPair (.Tcomplex 16))
    ∧ DtoNullValue (.Tstruct 0 1 4 true false) = .fatalNullNotKnown :=
  ⟨(C10_null_value (.Tint 4 true)).2.1 (by decide) (by decide),
   (C10_null_value (.Tcomplex 16)).2.2.1 (by decide),
   (C10_null_value (.Tstruct 0 1 4 true false)).2.2.2 (by decide) (by decide)
     (by decide) (by decide) (by decide) (by decide) (by decide) (by decide)
     (by decide)⟩

/-- C4: a struct-typed self-assignment (identical source and destination
addresses) emits no memory copy and leaves memory unchanged, and an
assignment of a struct type with zero fields emits no copy instructions at
all. -/
theorem C4_struct_self_assign_noop (mem : Mem) (idv nf sz : Nat)
    (pod ctor : Bool) (a : Nat) :
    DtoAssign mem (.lval (.Tstruct idv nf sz pod ctor) a)
        (.lval (.Tstruct idv nf sz pod ctor) a) = .done [] mem
    ∧ (∀ lhs rhs : DValue, lhs.type = .Tstruct idv 0 sz pod ctor →
        DtoAssign mem lhs rhs = .done [] mem) := by
  constructor
  · by_cases h : nf > 0 <;> simp [DtoAssign, DValue.type, DtoLVal?, h]
  · intro lhs rhs h
    cases lhs with
    | imm t b =>
      simp only [DValue.type] at h
      subst h
      simp [DtoAssign, DValue.type]
    | lval t addr =>
      simp only [DValue.type] at h
      subst h
      simp [DtoAssign, DValue.type]

/-- C4 witness: the theorem at a concrete overlapping self-assignment. -/
theorem C4_struct_self_assign_noop_witness :
    DtoAssign [9, 9] (.lval (.Tstruct 1 2 8 true false) 0)
        (.lval (.Tstruct 1 2 8 true false) 0) = .done [] [9, 9]
    ∧ DtoAssign [9, 9] (.lval (.Tstruct 1 0 0 true false) 0)
        (.imm (.Tstruct 1 0 0 true false) 3) = .done [] [9, 9] :=
  ⟨(C4_struct_self_assign_noop [9, 9] 1 2 8 true false 0).1,
   (C4_struct_self_assign_noop [9, 9] 1 0 0 true false 0).2
     (.lval (.Tstruct 1 0 0 true false) 0)
     (.imm (.Tstruct 1 0 0 true false) 3) (by decide)⟩

/-- C5 counterexample: on wasm32 the requested thread-locality is forced
off before the redeclaration check, so redeclaring an existing
non-thread-local global with requested thread-locality true (same type and
constant-ness) does not raise the fatal mismatch the claim requires; the
existing global is returned instead. -/
theorem C5_wasm_tls_redeclaration_counterexample :
    (LLGlobalVariable.isThreadLocal
        { name := "x", gtype := ⟨1⟩, isConstant := false,
          tlsMode := .NotThreadLocal, dllImport := false } = false)
    ∧ declareGlobal ⟨.wasm32, false⟩ .globalDynamic
        ⟨[{ name := "x", gtype := ⟨1⟩, isConstant := false,
            tlsMode := .NotThreadLocal, dllImport := false }]⟩
        ⟨1⟩ "x" false true false
      = .declared
          ⟨[{ name := "x", gtype := ⟨1⟩, isConstant := false,
              tlsMode := .NotThreadLocal, dllImport := false }]⟩
          { name := "x", gtype := ⟨1⟩, isConstant := false,
            tlsMode := .NotThreadLocal, dllImport := false }
    ∧ declareGlobal ⟨.wasm32, false⟩ .globalDynamic
        ⟨[{ name := "x", gtype := ⟨1⟩, isConstant := false,
            tlsMode := .NotThreadLocal, dllImport := false }]⟩
        ⟨1⟩ "x" false true false
      ≠ .fatalMismatch := by decide

/-- C5 amended: for a call to declareGlobal whose mangled name is already
registered, a difference in physical type, constant-ness, or
thread-locality (the latter taken after the target adjustment that forces
thread-locality off on wasm32, wasm64 and AVR) raises the fatal mismatch
error at insertion time, and when all three match the existing global is
returned with the module unchanged (no new global is created). -/
theorem C5_declareGlobal_registry_amended (tgt : TargetInfo)
    (tm : ThreadModelOption) (m : LLModule) (ty : LLTypeHandle) (name : String)
    (c tl dll : Bool) (existing : LLGlobalVariable)
    (hex : m.getGlobalVariable name = some existing) :
    ((existing.gtype ≠ ty ∨ existing.isConstant ≠ c
        ∨ existing.isThreadLocal
            ≠ (if tgt.arch = .wasm32 ∨ tgt.arch = .wasm64 ∨ tgt.arch = .avr
               then false else tl)) →
      declareGlobal tgt tm m ty name c tl dll = .fatalMismatch)
    ∧ ((existing.gtype = ty ∧ existing.isConstant = c
        ∧ existing.isThreadLocal
            = (if tgt.arch = .wasm32 ∨ tgt.arch = .wasm64 ∨ tgt.arch = .avr
               then false else tl)) →
      declareGlobal tgt tm m ty name c tl dll = .declared m existing) := by
  constructor
  · intro hmm
    simp only [declareGlobal, hex]
    rw [if_pos]
    rcases hmm with h | h | h
    · exact Or.inl h
    · exact Or.inr (Or.inl h)
    · exact Or.inr (Or.inr h)
  · rintro ⟨h1, h2, h3⟩
    simp only [declareGlobal, hex]
    rw [if_neg]
    push_neg
    exact ⟨h1, h2, h3⟩

/-- C5 witness: the amended theorem at a concrete matching redeclaration
on x86, returning the existing global with the module unchanged. -/
theorem C5_declareGlobal_registry_witness :
    declareGlobal ⟨.x86, false⟩ .globalDynamic
        ⟨[{ name := "g", gtype := ⟨2⟩, isConstant := true,
            tlsMode := .NotThreadLocal, dllImport := false }]⟩
        ⟨2⟩ "g" true false false
      = .declared
          ⟨[{ name := "g", gtype := ⟨2⟩, isConstant := true,
              tlsMode := .NotThreadLocal, dllImport := false }]⟩
          { name := "g", gtype := ⟨2⟩, isConstant := true,
            tlsMode := .NotThreadLocal, dllImport := false } :=
  (C5_declareGlobal_registry_amended ⟨.x86, false⟩ .globalDynamic
      ⟨[{ name := "g", gtype := ⟨2⟩, isConstant := true,
          tlsMode := .NotThreadLocal, dllImport := false }]⟩
      ⟨2⟩ "g" true false false
      { name := "g", gtype := ⟨2⟩, isConstant := true,
        tlsMode := .NotThreadLocal, dllImport := false }
      (by decide)).2 (by decide)

/-- C9 counterexample: on PPC a freshly declared thread-local global gets
the local-exec TLS model even though the thread-model option selects
global-dynamic; the option is ignored. -/
theorem C9_ppc_tls_counterexample :
    declareGlobal ⟨.ppc, false⟩ .globalDynamic ⟨[]⟩ ⟨0⟩ "g" false true false
      = .declared
          ⟨[{ name := "g", gtype := ⟨0⟩, isConstant := false,
              tlsMode := .LocalExecTLSModel, dllImport := false }]⟩
          { name := "g", gtype := ⟨0⟩, isConstant := false,
            tlsMode := .LocalExecTLSModel, dllImport := false }
    ∧ TLSModelKind.LocalExecTLSModel
        ≠ ThreadModelOption.globalDynamic.toTLSMode := by decide

/-- C9 amended: for every thread-local global freshly declared through
declareGlobal on a target that supports TLS (not wasm32, wasm64 or AVR),
the TLS model attached to the emitted global is the one selected by the
recognized thread-model option, except on PPC where only local-exec is
available and the option is ignored; the emitted global is thread-local. -/
theorem C9_tls_model_amended (tgt : TargetInfo) (tm : ThreadModelOption)
    (m : LLModule) (ty : LLTypeHandle) (name : String) (c dll : Bool)
    (hnew : m.getGlobalVariable name = none)
    (h1 : tgt.arch ≠ .wasm32) (h2 : tgt.arch ≠ .wasm64) (h3 : tgt.arch ≠ .avr) :
    ∃ g : LLGlobalVariable,
      declareGlobal tgt tm m ty name c true dll
        = .declared ⟨m.globals ++ [g]⟩ g
      ∧ g.tlsMode = (if tgt.arch = .ppc then .LocalExecTLSModel
                     else tm.toTLSMode)
      ∧ g.isThreadLocal = true := by
  have harch : (tgt.arch = .wasm32 ∨ tgt.arch = .wasm64 ∨ tgt.arch = .avr)
      = False := by
    simp [h1, h2, h3]
  refine ⟨{ name := name, gtype := ty, isConstant := c,
            tlsMode := if tgt.arch = .ppc then .LocalExecTLSModel
                       else tm.toTLSMode,
            dllImport := dll && tgt.isOSWindows }, ?_, rfl, ?_⟩
  · simp [declareGlobal, harch, hnew]
  · by_cases hp : tgt.arch = .ppc
    · simp [LLGlobalVariable.isThreadLocal, hp]
    · cases tm <;>
        simp [LLGlobalVariable.isThreadLocal, hp, ThreadModelOption.toTLSMode]

/-- C9 witness: the amended theorem at a concrete x86 declaration with the
initial-exec option. -/
theorem C9_tls_model_witness :
    ∃ g : LLGlobalVariable,
      declareGlobal ⟨.x86, false⟩ .initialExec ⟨[]⟩ ⟨0⟩ "t" false true false
        = .declared ⟨[] ++ [g]⟩ g
      ∧ g.tlsMode = (if Arch.x86 = .ppc then .LocalExecTLSModel
                     else ThreadModelOption.initialExec.toTLSMode)
      ∧ g.isThreadLocal = true :=
  C9_tls_model_amended ⟨.x86, false⟩ .initialExec ⟨[]⟩ ⟨0⟩ "t" false false
    (by decide) (by decide) (by decide) (by decide)

/-- Claim-side characterization of the modelled expressions whose fold
reports an error. -/
def CExpr.erroneous : CExpr → Bool
  | .varNonConstE _ => true
  | .castCTErrE _ => true
  | .otherE _ => true
  | _ => false

/-- C6 counterexample: with gagging inactive, folding a non-constant
variable reference reports the error (the error count rises to 1) and
returns the undef sentinel without terminating compilation, against the
claim that toConstElem terminates compilation unless error gagging is
active. -/
theorem C6_varexp_no_fatal_counterexample :
    toConstElem ⟨0, 0, 0⟩ (.varNonConstE (.Tint 4 true))
      = .ok ⟨0, 0, 1⟩ (.undef (.Tint 4 true))
    ∧ (toConstElem ⟨0, 0, 0⟩ (.varNonConstE (.Tint 4 true))).isTerminated
        = false := by decide

/-- C6 amended: toConstElem never returns null, substituting an undefined
constant of the expression type whenever the visitor produced a null
result; the failure paths that go through the fatalError helper terminate
compilation exactly when gagging is inactive and otherwise return the
undef sentinel (some failure paths, such as a non-constant variable
reference, only report the error and return the sentinel without
terminating); tryToConstElem gags diagnostics for the duration of the fold,
never terminates compilation, and returns null exactly when new errors
occurred during the fold. -/
theorem C6_constfold_entry_points_amended (g : GlobalState) (e : CExpr)
    (t : DType) :
    (∀ g1 : GlobalState, processConstElem g e = .res g1 none →
        toConstElem g e = .ok g1 (.undef e.type))
    ∧ (g.gag = 0 → toConstElem g (.otherE t) = .terminated (reportError g))
    ∧ (0 < g.gag →
        toConstElem g (.otherE t) = .ok (reportError g) (.undef t))
    ∧ (∃ (g1 : GlobalState) (c : Option LLConst),
        tryToConstElem g e = .ok g1 c ∧ (c = none ↔ e.erroneous = true)) := by
  refine ⟨?_, ?_, ?_, ?_⟩
  · intro g1 hp
    simp [toConstElem, hp]
  · intro hg
    have hg2 : (reportError g).gag = 0 := by
      simp [reportError, hg]
    simp [toConstElem, processConstElem, fatalErrorHelper, hg2]
  · intro hg
    have hg2 : (reportError g).gag = g.gag := by
      unfold reportError
      split <;> rfl
    have hg3 : ¬ (reportError g).gag = 0 := by omega
    simp [toConstElem, processConstElem, fatalErrorHelper, CExpr.type, hg3]
  · cases e <;>
      simp [tryToConstElem, startGagging, endGagging, processConstElem,
        reportError, fatalErrorHelper, CExpr.erroneous] <;>
      exact ⟨_, _, ⟨rfl, rfl⟩, by simp⟩

/-- C6 witness: the amended theorem at concrete inputs: an ungagged
non-constant expression terminates compilation through toConstElem, and
tryToConstElem on the same expression returns null without terminating. -/
theorem C6_constfold_entry_points_witness :
    toConstElem ⟨0, 0, 5⟩ (.otherE (.Tint 4 true))
      = .terminated (reportError ⟨0, 0, 5⟩)
    ∧ (∃ (g1 : GlobalState) (c : Option LLConst),
        tryToConstElem ⟨0, 0, 5⟩ (.otherE (.Tint 4 true)) = .ok g1 c
        ∧ (c = none ↔ CExpr.erroneous (.otherE (.Tint 4 true)) = true)) :=
  ⟨(C6_constfold_entry_points_amended ⟨0, 0, 5⟩ (.otherE (.Tint 4 true))
      (.Tint 4 true)).2.1 (by decide),
   (C6_constfold_entry_points_amended ⟨0, 0, 5⟩ (.otherE (.Tint 4 true))
      (.Tint 4 true)).2.2.2⟩

theorem rewriteNonPODBlock_ret (abi : X86TargetABI) (fty : IrFuncTy) :
    (rewriteNonPODBlock abi fty).ret = fty.ret := by
  simp only [rewriteNonPODBlock]
  split <;> rfl

theorem rewriteInRegBlock_ret (fty : IrFuncTy) :
    (rewriteInRegBlock fty).ret = fty.ret := by
  unfold rewriteInRegBlock
  split
  · split
    · rfl
    · split
      · rfl
      · split
        · rfl
        · split
          · rfl
          · rfl
  · rfl

theorem workaroundIssue1356_ret (abi : X86TargetABI) (fty : IrFuncTy) :
    (workaroundIssue1356 abi fty).ret = fty.ret := by
  unfold workaroundIssue1356
  split <;> rfl

theorem elideEmptyStructsBlock_ret (abi : X86TargetABI) (fty : IrFuncTy) :
    (elideEmptyStructsBlock abi fty).ret = fty.ret := by
  unfold elideEmptyStructsBlock
  split <;> rfl

theorem rewriteRetBlock_ftype (fty : IrFuncTy) :
    (rewriteRetBlock fty).ftype = fty.ftype := by
  simp only [rewriteRetBlock]
  split
  · split <;> rfl
  · rfl

theorem rewriteNonPODBlock_ftype (abi : X86TargetABI) (fty : IrFuncTy) :
    (rewriteNonPODBlock abi fty).ftype = fty.ftype := by
  simp only [rewriteNonPODBlock]
  split <;> rfl

theorem rewriteRetBlock_args (fty : IrFuncTy) :
    (rewriteRetBlock fty).args = fty.args := by
  simp only [rewriteRetBlock]
  split
  · split <;> rfl
  · rfl

theorem rewriteRetBlock_arg_this (fty : IrFuncTy) :
    (rewriteRetBlock fty).arg_this = fty.arg_this := by
  simp only [rewriteRetBlock]
  split
  · split <;> rfl
  · rfl

theorem rewriteRetBlock_arg_nest (fty : IrFuncTy) :
    (rewriteRetBlock fty).arg_nest = fty.arg_nest := by
  simp only [rewriteRetBlock]
  split
  · split <;> rfl
  · rfl

theorem rewriteRetBlock_arg_sret (fty : IrFuncTy) :
    (rewriteRetBlock fty).arg_sret = fty.arg_sret := by
  simp only [rewriteRetBlock]
  split
  · split <;> rfl
  · rfl

theorem rewriteNonPODBlock_arg_this (abi : X86TargetABI) (fty : IrFuncTy) :
    (rewriteNonPODBlock abi fty).arg_this = fty.arg_this := by
  simp only [rewriteNonPODBlock]
  split <;> rfl

theorem rewriteNonPODBlock_arg_nest (abi : X86TargetABI) (fty : IrFuncTy) :
    (rewriteNonPODBlock abi fty).arg_nest = fty.arg_nest := by
  simp only [rewriteNonPODBlock]
  split <;> rfl

theorem rewriteNonPODBlock_arg_sret (abi : X86TargetABI) (fty : IrFuncTy) :
    (rewriteNonPODBlock abi fty).arg_sret = fty.arg_sret := by
  simp only [rewriteNonPODBlock]
  split <;> rfl

/-- C2 counterexample: on a target whose x86 ABI does not return structs
in registers (Linux, Solaris, NetBSD), an extern(C) function returning a
POD 4-byte struct (a power-of-two size within the register-return
threshold) is classified sret by returnInArg, against the claim that such
returns go directly in registers. -/
theorem C2_pod_struct_sret_counterexample :
    isPOD (.Tstruct 0 1 4 true false) false = true
    ∧ canRewriteAsInt (.Tstruct 0 1 4 true false) = true
    ∧ X86TargetABI.returnInArg ⟨false, false, false⟩
        { retTy := .Tstruct 0 1 4 true false, linkage := .c,
          variadic := false, isref := false } false = true
    ∧ ¬ (X86TargetABI.returnInArg ⟨false, false, false⟩
        { retTy := .Tstruct 0 1 4 true false, linkage := .c,
          variadic := false, isref := false } false = false) := by decide

/-- C2 amended: a ref-returning function is never classified sret; a POD
struct return of power-of-two size within the 8-byte threshold is
classified for direct register return, and its return slot is rewritten as
an equivalently sized integer by rewriteFunctionType, provided the
function is extern(D) or the target returns structs in registers and the
function is not MSVC++; and on a target that returns structs in registers,
any other struct return (non-POD or of unsuitable size) is classified sret
with the hidden pointer. -/
theorem C2_return_classification_amended (abi : X86TargetABI)
    (tf : TypeFunction) (needsThis : Bool) (idv nf sz : Nat)
    (pod ctor : Bool) :
    (tf.isref = true → abi.returnInArg tf needsThis = false)
    ∧ (tf.retTy = .Tstruct idv nf sz pod ctor → tf.isref = false →
       pod = true → (sz = 1 ∨ sz = 2 ∨ sz = 4 ∨ sz = 8) →
       (isExternD tf = true
         ∨ (abi.returnStructsInRegs = true
             ∧ ¬(abi.isMSVC = true ∧ tf.linkage = .cpp))) →
       abi.returnInArg tf needsThis = false
       ∧ ∀ fty : IrFuncTy, fty.ftype = tf → fty.ret.byref = false →
           fty.ret.atype = tf.retTy →
           (abi.rewriteFunctionType fty).ret.rewrite = some .integerRW)
    ∧ (tf.retTy = .Tstruct idv nf sz pod ctor → tf.isref = false →
       abi.returnStructsInRegs = true →
       (pod = false ∨ (sz ≠ 1 ∧ sz ≠ 2 ∧ sz ≠ 4 ∧ sz ≠ 8)) →
       abi.returnInArg tf needsThis = true) := by
  refine ⟨?_, ?_, ?_⟩
  · intro h
    simp [X86TargetABI.returnInArg, h]
  · intro hrt href hpod hsz hcc
    subst hpod
    have hcr : canRewriteAsInt (.Tstruct idv nf sz true ctor) = true := by
      rcases hsz with h | h | h | h <;> simp [canRewriteAsInt, DType.size, h]
    have hcpp : (abi.isMSVC && (tf.linkage == .cpp)) = false := by
      rcases hcc with hD | ⟨_, hn⟩
      · have hd : tf.linkage = .d := by
          simp only [isExternD, Bool.and_eq_true, beq_iff_eq] at hD
          exact hD.1
        simp [hd]
      · by_cases h : abi.isMSVC = true
        · have h2 : tf.linkage ≠ LINKAGE.cpp := fun hc => hn ⟨h, hc⟩
          have h3 : (tf.linkage == LINKAGE.cpp) = false := by simp [h2]
          simp [h3]
        · rw [Bool.not_eq_true] at h
          simp [h]
    constructor
    · have hsir : (!isExternD tf && !abi.returnStructsInRegs) = false := by
        rcases hcc with hD | ⟨hs, _⟩
        · simp [hD]
        · simp [hs]
      simp [X86TargetABI.returnInArg, getExtraLoweredReturnType, hrt, href,
        isAggregate, DType.isStructTy, DType.iscomplex, hsir, hcpp, isPOD,
        hcr]
    · intro fty hf hbr hra
      have hret : (abi.rewriteFunctionType fty).ret = (rewriteRetBlock fty).ret := by
        unfold X86TargetABI.rewriteFunctionType
        rw [elideEmptyStructsBlock_ret, workaroundIssue1356_ret,
          rewriteInRegBlock_ret, rewriteNonPODBlock_ret]
      rw [hret]
      unfold rewriteRetBlock
      have hskip : skipReturnValueRewrite fty = false := by
        simp [skipReturnValueRewrite, hbr, hra, hf, hrt]
      rw [hskip]
      simp [getExtraLoweredReturnType, hf, hrt, isAggregate, DType.isStructTy,
        hcr, applyIntegerRewrite]
  · intro hrt href hsir hbad
    have hcr : canRewriteAsInt (.Tstruct idv nf sz pod ctor)
        = (sz == 1 || sz == 2 || sz == 4 || sz == 8) := by
      simp [canRewriteAsInt, DType.size]
    simp only [X86TargetABI.returnInArg, getExtraLoweredReturnType, hrt, href,
      Bool.false_eq_true, if_false, isAggregate, DType.isStructTy,
      DType.iscomplex, DType.isSArrayTy, DType.isDelegateTy, hsir,
      Bool.not_true, Bool.and_false, Bool.false_and, Bool.not_false]
    rcases hbad with hp | hs
    · subst hp
      simp [isPOD]
    · split_ifs <;> simp_all [isPOD, canRewriteAsInt, DType.size]

/-- C2 witness: the amended theorem at a concrete extern(D) function
returning a POD 8-byte struct: direct register return with the integer
rewrite applied to the return slot. -/
theorem C2_return_classification_witness :
    X86TargetABI.returnInArg ⟨false, false, false⟩
        { retTy := .Tstruct 3 2 8 true false, linkage := .d,
          variadic := false, isref := false } false = false
    ∧ (X86TargetABI.rewriteFunctionType ⟨false, false, false⟩
        { ftype := { retTy := .Tstruct 3 2 8 true false, linkage := .d,
                     variadic := false, isref := false }
          ret := { atype := .Tstruct 3 2 8 true false, byref := false,
                   attrs := [], rewrite := none }
          arg_this := none, arg_nest := none, arg_sret := none,
          args := [] }).ret.rewrite = some .integerRW := by
  have h := (C2_return_classification_amended ⟨false, false, false⟩
    { retTy := .Tstruct 3 2 8 true false, linkage := .d,
      variadic := false, isref := false } false 3 2 8 true false).2.1
    (by decide) (by decide) (by decide) (by decide) (Or.inl (by decide))
  exact ⟨h.1, h.2 _ (by decide) (by decide) (by decide)⟩

/-- An argument slot carries no InReg attribute. -/
abbrev noInRegArg (a : IrFuncTyArg) : Prop := LLAttr.InReg ∉ a.attrs

def noInRegOpt : Option IrFuncTyArg → Prop
  | some a => noInRegArg a
  | none => True

/-- No slot of the lowered function type carries an InReg attribute. -/
def noInRegFty (fty : IrFuncTy) : Prop :=
  noInRegArg fty.ret ∧ noInRegOpt fty.arg_this ∧ noInRegOpt fty.arg_nest
    ∧ noInRegOpt fty.arg_sret ∧ ∀ a ∈ fty.args, noInRegArg a

theorem noInRegFty_rewriteRetBlock (fty : IrFuncTy) (h : noInRegFty fty) :
    noInRegFty (rewriteRetBlock fty) := by
  simp only [rewriteRetBlock]
  split
  · split
    · exact ⟨h.1, h.2.1, h.2.2.1, h.2.2.2.1, h.2.2.2.2⟩
    · exact h
  · exact h

theorem noInRegFty_rewriteNonPODBlock (abi : X86TargetABI) (fty : IrFuncTy)
    (h : noInRegFty fty) : noInRegFty (rewriteNonPODBlock abi fty) := by
  simp only [rewriteNonPODBlock]
  split
  · refine ⟨h.1, h.2.1, h.2.2.1, h.2.2.2.1, ?_⟩
    intro a ha
    simp only [List.mem_map] at ha
    obtain ⟨b, hb, rfl⟩ := ha
    split
    · exact h.2.2.2.2 b hb
    · exact h.2.2.2.2 b hb
  · exact h

theorem noInRegFty_workaroundIssue1356 (abi : X86TargetABI) (fty : IrFuncTy)
    (h : noInRegFty fty) : noInRegFty (workaroundIssue1356 abi fty) := by
  unfold workaroundIssue1356
  split
  · refine ⟨h.1, h.2.1, h.2.2.1, h.2.2.2.1, ?_⟩
    intro a ha
    simp only [List.mem_map] at ha
    obtain ⟨b, hb, rfl⟩ := ha
    split
    · intro hm
      exact h.2.2.2.2 b hb (List.mem_of_mem_filter hm)
    · exact h.2.2.2.2 b hb
  · exact h

theorem noInRegFty_elideEmptyStructsBlock (abi : X86TargetABI)
    (fty : IrFuncTy) (h : noInRegFty fty) :
    noInRegFty (elideEmptyStructsBlock abi fty) := by
  unfold elideEmptyStructsBlock
  split
  · exact h
  · exact ⟨h.1, h.2.1, h.2.2.1, h.2.2.2.1,
      fun a ha => h.2.2.2.2 a (List.mem_of_mem_filter ha)⟩

theorem rewriteInRegBlock_not_externD (fty : IrFuncTy)
    (hD : isExternD fty.ftype = false) : rewriteInRegBlock fty = fty := by
  unfold rewriteInRegBlock
  simp [hD]

theorem rewriteInRegBlock_ftype (fty : IrFuncTy) :
    (rewriteInRegBlock fty).ftype = fty.ftype := by
  unfold rewriteInRegBlock
  split
  · split
    · rfl
    · split
      · rfl
      · split
        · rfl
        · split
          · rfl
          · rfl
  · rfl

theorem workaroundIssue1356_ftype (abi : X86TargetABI) (fty : IrFuncTy) :
    (workaroundIssue1356 abi fty).ftype = fty.ftype := by
  unfold workaroundIssue1356
  split <;> rfl

theorem elideEmptyStructsBlock_externD (abi : X86TargetABI) (fty : IrFuncTy)
    (h : isExternD fty.ftype = true) : elideEmptyStructsBlock abi fty = fty := by
  unfold elideEmptyStructsBlock
  simp [h]

theorem workaroundIssue1356_args_concat (abi : X86TargetABI) (fty : IrFuncTy)
    (pre : List IrFuncTyArg) (lastR : IrFuncTyArg)
    (h : fty.args = pre ++ [lastR]) :
    ∃ (pre3 : List IrFuncTyArg) (lastF : IrFuncTyArg),
      (workaroundIssue1356 abi fty).args = pre3 ++ [lastF]
      ∧ (LLAttr.InReg ∈ lastF.attrs ↔ LLAttr.InReg ∈ lastR.attrs)
      ∧ lastF.rewrite = lastR.rewrite ∧ lastF.byref = lastR.byref := by
  unfold workaroundIssue1356
  split
  · refine ⟨_, _, by rw [h, List.map_append, List.map_cons, List.map_nil], ?_, ?_, ?_⟩
    · split
      · simp [removeAttr, List.mem_filter]
      · exact Iff.rfl
    · split <;> rfl
    · split <;> rfl
  · exact ⟨pre, lastR, h, Iff.rfl, rfl, rfl⟩

/-- C7: the InReg register-packing heuristic runs only for extern(D)
function types: under any other linkage no slot gains an InReg attribute;
and under extern(D), when neither a this pointer, a context pointer nor an
sret pointer is present, the trailing by-value POD argument is marked
InReg exactly when its type is not floating point and its size is exactly
1, 2 or 4 bytes (so a 3-byte struct is never packed), with 1, 2 and 4 byte
structs and static arrays first rewritten as equivalently sized
integers (byval semantics undone). -/
theorem C7_inreg_packing (abi : X86TargetABI) (fty : IrFuncTy)
    (pre : List IrFuncTyArg) (last : IrFuncTyArg) :
    (isExternD fty.ftype = false → noInRegFty fty →
      noInRegFty (abi.rewriteFunctionType fty))
    ∧ (isExternD fty.ftype = true →
       fty.arg_this = none → fty.arg_nest = none → fty.arg_sret = none →
       fty.args = pre ++ [last] →
       last.byref = false → isPOD last.atype false = true →
       last.rewrite = none → LLAttr.InReg ∉ last.attrs →
       ∃ (pre3 : List IrFuncTyArg) (lastF : IrFuncTyArg),
         (abi.rewriteFunctionType fty).args = pre3 ++ [lastF]
         ∧ (LLAttr.InReg ∈ lastF.attrs ↔
             (last.atype.isfloating = false
               ∧ (last.atype.size = 1 ∨ last.atype.size = 2
                   ∨ last.atype.size = 4)))
         ∧ ((last.atype.isStructTy = true ∨ last.atype.isSArrayTy = true) →
             (last.atype.isfloating = false
               ∧ (last.atype.size = 1 ∨ last.atype.size = 2
                   ∨ last.atype.size = 4)) →
             lastF.rewrite = some .integerRW ∧ lastF.byref = false)) := by
  constructor
  · intro hD h
    unfold X86TargetABI.rewriteFunctionType
    have hD2 : isExternD (rewriteNonPODBlock abi (rewriteRetBlock fty)).ftype
        = false := by
      rw [rewriteNonPODBlock_ftype, rewriteRetBlock_ftype]
      exact hD
    rw [rewriteInRegBlock_not_externD _ hD2]
    exact noInRegFty_elideEmptyStructsBlock _ _
      (noInRegFty_workaroundIssue1356 _ _
        (noInRegFty_rewriteNonPODBlock _ _ (noInRegFty_rewriteRetBlock _ h)))
  · intro hD ht hn hs hargs hbr hpod hrw hin
    have h1args : (rewriteRetBlock fty).args = pre ++ [last] := by
      rw [rewriteRetBlock_args, hargs]
    obtain ⟨pre2, h2args⟩ :
        ∃ pre2, (rewriteNonPODBlock abi (rewriteRetBlock fty)).args
          = pre2 ++ [last] := by
      simp only [rewriteNonPODBlock]
      split
      · refine ⟨List.map (fun a =>
            if (!a.byref && !isPOD a.atype false) = true then applyIndirectByval a
            else a) pre, ?_⟩
        rw [h1args, List.map_append, List.map_cons, List.map_nil]
        simp [hbr, hpod]
      · exact ⟨pre, h1args⟩
    have h2this : (rewriteNonPODBlock abi (rewriteRetBlock fty)).arg_this
        = none := by
      rw [rewriteNonPODBlock_arg_this, rewriteRetBlock_arg_this, ht]
    have h2nest : (rewriteNonPODBlock abi (rewriteRetBlock fty)).arg_nest
        = none := by
      rw [rewriteNonPODBlock_arg_nest, rewriteRetBlock_arg_nest, hn]
    have h2sret : (rewriteNonPODBlock abi (rewriteRetBlock fty)).arg_sret
        = none := by
      rw [rewriteNonPODBlock_arg_sret, rewriteRetBlock_arg_sret, hs]
    have h2ftype : isExternD
        (rewriteNonPODBlock abi (rewriteRetBlock fty)).ftype = true := by
      rw [rewriteNonPODBlock_ftype, rewriteRetBlock_ftype]
      exact hD
    have hnorw : (last.rewrite == some RewriteKind.indirectByvalRW) = false := by
      rw [hrw]
      rfl
    have h3args : (rewriteInRegBlock
        (rewriteNonPODBlock abi (rewriteRetBlock fty))).args
        = pre2 ++ [if (!last.atype.isfloating
              && (last.atype.size == 1 || last.atype.size == 2
                  || last.atype.size == 4)) = true then
            addAttr (if (last.atype.isStructTy || last.atype.isSArrayTy) = true
                then { applyIntegerRewrite last with byref := false, attrs := [] }
                else last) .InReg
          else last] := by
      unfold rewriteInRegBlock
      rw [h2ftype, if_pos rfl, h2this, h2nest, h2sret, h2args,
        List.getLast?_concat]
      simp only [hnorw, hbr, Bool.false_and, Bool.or_self, Bool.false_or,
        Bool.false_eq_true, if_false, List.dropLast_concat]
    have h3ftype : isExternD (workaroundIssue1356 abi
        (rewriteInRegBlock (rewriteNonPODBlock abi (rewriteRetBlock fty)))).ftype
        = true := by
      rw [workaroundIssue1356_ftype, rewriteInRegBlock_ftype]
      exact h2ftype
    obtain ⟨pre3, lastF, hfin, hinreg, hrwF, hbrF⟩ :=
      workaroundIssue1356_args_concat abi _ pre2 _ h3args
    refine ⟨pre3, lastF, ?_, ?_, ?_⟩
    · unfold X86TargetABI.rewriteFunctionType
      rw [elideEmptyStructsBlock_externD _ _ h3ftype]
      exact hfin
    · rw [hinreg]
      by_cases hcond : (!last.atype.isfloating
          && (last.atype.size == 1 || last.atype.size == 2
              || last.atype.size == 4)) = true
      · rw [if_pos hcond]
        have hc2 : last.atype.isfloating = false
            ∧ (last.atype.size = 1 ∨ last.atype.size = 2
                ∨ last.atype.size = 4) := by
          simp only [Bool.and_eq_true, Bool.not_eq_true', Bool.or_eq_true,
            beq_iff_eq] at hcond
          tauto
        simp only [addAttr]
        constructor
        · intro _
          exact hc2
        · intro _
          split <;> simp
      · rw [if_neg hcond]
        have hc2 : ¬(last.atype.isfloating = false
            ∧ (last.atype.size = 1 ∨ last.atype.size = 2
                ∨ last.atype.size = 4)) := by
          intro hc
          apply hcond
          simp only [Bool.and_eq_true, Bool.not_eq_true', Bool.or_eq_true,
            beq_iff_eq]
          tauto
        constructor
        · intro hm
          exact absurd hm hin
        · intro hc
          exact absurd hc hc2
    · intro hagg hc2
      have hcond : (!last.atype.isfloating
          && (last.atype.size == 1 || last.atype.size == 2
              || last.atype.size == 4)) = true := by
        simp only [Bool.and_eq_true, Bool.not_eq_true', Bool.or_eq_true,
          beq_iff_eq]
        tauto
      have haggb : (last.atype.isStructTy || last.atype.isSArrayTy) = true := by
        rcases hagg with h | h <;> simp [h]
      rw [if_pos hcond] at hrwF hbrF
      rw [if_pos haggb] at hrwF hbrF
      constructor
      · rw [hrwF]
        rfl
      · rw [hbrF]
        rfl

/-- C7 witness: the packing theorem applied to a concrete extern(D)
function whose trailing argument is a POD 4-byte struct passed by value:
the rewritten trailing argument carries InReg and the integer rewrite. -/
theorem C7_inreg_packing_witness :
    ∃ (pre3 : List IrFuncTyArg) (lastF : IrFuncTyArg),
      (X86TargetABI.rewriteFunctionType ⟨false, false, true⟩
        { ftype := { retTy := .Tint 4 true, linkage := .d,
                     variadic := false, isref := false }
          ret := { atype := .Tint 4 true, byref := false, attrs := [],
                   rewrite := none }
          arg_this := none, arg_nest := none, arg_sret := none,
          args := [{ atype := .Tstruct 7 1 4 true false, byref := false,
                     attrs := [], rewrite := none }] }).args = pre3 ++ [lastF]
      ∧ (LLAttr.InReg ∈ lastF.attrs ↔
          ((DType.Tstruct 7 1 4 true false).isfloating = false
            ∧ ((DType.Tstruct 7 1 4 true false).size = 1
                ∨ (DType.Tstruct 7 1 4 true false).size = 2
                ∨ (DType.Tstruct 7 1 4 true false).size = 4)))
      ∧ (((DType.Tstruct 7 1 4 true false).isStructTy = true
            ∨ (DType.Tstruct 7 1 4 true false).isSArrayTy = true) →
          ((DType.Tstruct 7 1 4 true false).isfloating = false
            ∧ ((DType.Tstruct 7 1 4 true false).size = 1
                ∨ (DType.Tstruct 7 1 4 true false).size = 2
                ∨ (DType.Tstruct 7 1 4 true false).size = 4)) →
          lastF.rewrite = some .integerRW ∧ lastF.byref = false) :=
  (C7_inreg_packing ⟨false, false, true⟩
    { ftype := { retTy := .Tint 4 true, linkage := .d,
                 variadic := false, isref := false }
      ret := { atype := .Tint 4 true, byref := false, attrs := [],
               rewrite := none }
      arg_this := none, arg_nest := none, arg_sret := none,
      args := [{ atype := .Tstruct 7 1 4 true false, byref := false,
                 attrs := [], rewrite := none }] }
    []
    { atype := .Tstruct 7 1 4 true false, byref := false, attrs := [],
      rewrite := none }).2
    (by decide) rfl rfl rfl rfl rfl (by decide) rfl (by decide)
